import Mathlib

/-!
Shallow embedding of `add_emergency_requests.py` (repository
Controlador_Ascensores): a batch utility that appends two randomly
generated emergency-call records to each building of a simulation-data
JSON document and writes the document back to disk.

Modelling conventions:
* Python `random.randint` / `random.choice` draws are passed in as explicit
  parameters (`GenRandom`, `BuildingRandom`); the theorems constrain them by
  validity predicates expressing exactly the ranges the source draws from.
* Wall-clock time (`datetime.now()`) is an explicit `base_time : Int`
  parameter, in seconds; `timedelta(minutes=m)` adds `60 * m` seconds.  The
  ISO-8601 rendering of the resulting `datetime` is kept abstract: the field
  `timestamp_emergencia` holds the time value itself.
* Python `int` is `Int`; f-string `{n:02d}` formatting is `py_format02`.
* JSON fields the script never touches (unknown sibling fields of the
  document, of a building, or of a pre-existing request) are modelled as an
  opaque association list `extra`; pre-existing requests of other variants
  are the `Petition.other` constructor.
* A missing `peticiones` key raises `KeyError` in Python; the batch routine
  is therefore embedded in `Except PyError`.
-/

namespace AddEmergency

/-- The five emergency types of `emergency_types` in
`add_emergency_requests_to_simulation` (source lines 81-87). -/
def emergency_types : List String :=
  ["EMERGENCY_STOP",
   "POWER_FAILURE",
   "PEOPLE_TRAPPED",
   "MECHANICAL_FAILURE",
   "FIRE_ALARM"]

/-- The `descriptions` dict local to `generate_emergency_request`
(source lines 40-46), as an association list. -/
def descriptions : List (String × String) :=
  [("EMERGENCY_STOP", "Botón de emergencia activado por usuario"),
   ("POWER_FAILURE", "Pérdida de suministro eléctrico principal"),
   ("PEOPLE_TRAPPED", "Personas atrapadas entre pisos"),
   ("MECHANICAL_FAILURE", "Fallo en sistema de tracción"),
   ("FIRE_ALARM", "Detección de humo en shaft del ascensor")]

/-- Python `table.get(k, dflt)`: the value bound to the first key equal to
`k`, or `dflt` when no key matches. -/
def dict_get (table : List (String × String)) (k dflt : String) : String :=
  match table.find? (fun p => p.fst == k) with
  | some p => p.snd
  | none => dflt

/-- Python `f"{n:02d}"`: decimal rendering of `n` zero-padded to a minimum
total width of 2 (the sign counts toward the width). -/
def py_format02 (n : Int) : String :=
  let sign := if n < 0 then "-" else ""
  let digits := toString n.natAbs
  if sign.length + digits.length < 2 then
    sign ++ String.mk (List.replicate (2 - (sign.length + digits.length)) '0') ++ digits
  else
    sign ++ digits

/-- One entry of `elevadores_estado` (source lines 57-71). -/
structure ElevatorState where
  id_ascensor : String
  disponible : Bool
  piso_actual : Int
  deriving DecidableEq

/-- The record returned by `generate_emergency_request` (source lines 48-73).
`timestamp_emergencia` holds the time value (seconds) whose ISO-8601
rendering the script stores. -/
structure EmergencyRequest where
  tipo : String
  id_edificio : String
  ascensor_id_emergencia : String
  tipo_emergencia : String
  piso_actual_emergencia : Int
  timestamp_emergencia : Int
  descripcion_emergencia : String
  elevadores_estado : List ElevatorState
  deriving DecidableEq

/-- The random draws made inside one call of `generate_emergency_request`:
`random.randint(10, 300)` for the timestamp offset (line 36) and three
`random.randint(0, 9)` floors for the elevator states (lines 60, 65, 70). -/
structure GenRandom where
  random_minutes : Int
  floor0 : Int
  floor1 : Int
  floor2 : Int
  deriving DecidableEq

/-- The ranges `random.randint` draws from in `generate_emergency_request`:
`randint(a, b)` is inclusive on both ends. -/
def GenRandom.Valid (r : GenRandom) : Prop :=
  10 ≤ r.random_minutes ∧ r.random_minutes ≤ 300 ∧
  0 ≤ r.floor0 ∧ r.floor0 ≤ 9 ∧
  0 ≤ r.floor1 ∧ r.floor1 ≤ 9 ∧
  0 ≤ r.floor2 ∧ r.floor2 ≤ 9

instance (r : GenRandom) : Decidable r.Valid := by
  unfold GenRandom.Valid; infer_instance

/-- `generate_emergency_request(building_id, emergency_type, elevator_index,
current_floor)` (source lines 21-73), with the wall clock and the random
draws as explicit parameters. -/
def generate_emergency_request (building_id : String) (emergency_type : String)
    (elevator_index : Int) (current_floor : Int)
    (base_time : Int) (r : GenRandom) : EmergencyRequest :=
  { tipo := "llamada_emergencia"
    id_edificio := building_id
    ascensor_id_emergencia := "ASC_" ++ building_id ++ "_" ++ py_format02 elevator_index
    tipo_emergencia := emergency_type
    piso_actual_emergencia := current_floor
    timestamp_emergencia := base_time + 60 * r.random_minutes
    descripcion_emergencia := dict_get descriptions emergency_type "Emergencia no especificada"
    elevadores_estado :=
      [{ id_ascensor := "ASC_" ++ building_id ++ "_00"
         disponible := elevator_index != 0
         piso_actual := r.floor0 },
       { id_ascensor := "ASC_" ++ building_id ++ "_01"
         disponible := elevator_index != 1
         piso_actual := r.floor1 },
       { id_ascensor := "ASC_" ++ building_id ++ "_02"
         disponible := elevator_index != 2
         piso_actual := r.floor2 }] }

/-- An entry of a building's `peticiones` list: either an emergency request
appended by this script or a pre-existing request of some other variant,
kept opaque. -/
inductive Petition where
  | emergency (r : EmergencyRequest)
  | other (fields : List (String × String))
  deriving DecidableEq

/-- One entry of the document's `edificios` array.  `peticiones = none`
models a building object without the `"peticiones"` key; `extra` models the
sibling fields the script never reads or writes. -/
structure Building where
  id_edificio : String
  peticiones : Option (List Petition)
  extra : List (String × String)
  deriving DecidableEq

/-- The loaded `simulation_data.json` document; `extra` models top-level
fields other than `edificios`. -/
structure SimulationDocument where
  edificios : List Building
  extra : List (String × String)
  deriving DecidableEq

/-- The Python exceptions the batch loop can raise. -/
inductive PyError where
  | keyError (key : String)
  deriving DecidableEq

/-- The per-building random draws of the batch loop (source lines 114-123):
`emergency_1_type = random.choice(emergency_types)`,
`emergency_2_type = random.choice([t for t in emergency_types if t != emergency_1_type])`,
`elevator_1 = random.randint(0, 2)`, `floor_1 = random.randint(0, 9)`,
`elevator_2 = random.choice([i for i in range(3) if i != elevator_1])`,
`floor_2 = random.choice([f for f in range(10) if f != floor_1])`,
plus the draws inside the two `generate_emergency_request` calls. -/
structure BuildingRandom where
  t1 : String
  t2 : String
  e1 : Int
  f1 : Int
  e2 : Int
  f2 : Int
  g1 : GenRandom
  g2 : GenRandom
  deriving DecidableEq

/-- Python `range(n)` as a list of `Int`. -/
def int_range (n : Nat) : List Int := (List.range n).map Int.ofNat

/-- `random.choice(l)` returns a member of `l` and `random.randint(a, b)`
a value in `[a, b]`; this predicate states exactly the candidate sets the
source draws each value from. -/
def BuildingRandom.Valid (r : BuildingRandom) : Prop :=
  r.t1 ∈ emergency_types ∧
  r.t2 ∈ emergency_types.filter (fun t => t != r.t1) ∧
  r.e1 ∈ int_range 3 ∧
  r.f1 ∈ int_range 10 ∧
  r.e2 ∈ (int_range 3).filter (fun i => i != r.e1) ∧
  r.f2 ∈ (int_range 10).filter (fun f => f != r.f1) ∧
  r.g1.Valid ∧ r.g2.Valid

instance (r : BuildingRandom) : Decidable r.Valid := by
  unfold BuildingRandom.Valid; infer_instance

/-- The two records built for one building (source lines 126-132), in the
order they are appended on line 135. -/
def building_requests (b : Building) (r : BuildingRandom) (base_time : Int) :
    List Petition :=
  [Petition.emergency
     (generate_emergency_request b.id_edificio r.t1 r.e1 r.f1 base_time r.g1),
   Petition.emergency
     (generate_emergency_request b.id_edificio r.t2 r.e2 r.f2 base_time r.g2)]

/-- One iteration of the batch loop (source lines 108-137): reads
`building['peticiones']` (raising `KeyError` when the key is absent),
extends it with the two generated requests and adds 2 to the counter. -/
def process_building (b : Building) (r : BuildingRandom) (base_time : Int) :
    Except PyError (Building × Nat) :=
  match b.peticiones with
  | none => Except.error (PyError.keyError "peticiones")
  | some pets =>
      Except.ok
        ({ b with peticiones := some (pets ++ building_requests b r base_time) }, 2)

/-- The batch loop over `data['edificios']`, threading the running total
`total_emergencies_added`; `i` is the index of the current building into the
stream of per-building random draws. -/
def augment_list (rnd : Nat → BuildingRandom) (base_time : Int) :
    Nat → List Building → Except PyError (List Building × Nat)
  | _, [] => Except.ok ([], 0)
  | i, b :: bs =>
      match process_building b (rnd i) base_time with
      | Except.error e => Except.error e
      | Except.ok (b2, n) =>
          match augment_list rnd base_time (i + 1) bs with
          | Except.error e => Except.error e
          | Except.ok (bs2, m) => Except.ok (b2 :: bs2, n + m)

/-- The in-memory mutation performed by
`add_emergency_requests_to_simulation` (source lines 104-142) on an already
loaded document, returning the updated document and the reported total. -/
def add_emergency_requests_to_simulation (doc : SimulationDocument)
    (rnd : Nat → BuildingRandom) (base_time : Int) :
    Except PyError (SimulationDocument × Nat) :=
  match augment_list rnd base_time 0 doc.edificios with
  | Except.error e => Except.error e
  | Except.ok (bs2, total) => Except.ok ({ doc with edificios := bs2 }, total)

/-- The documents handed to the save step (source lines 147-149) during a
run that starts from an already loaded document: the save statement sits
after the whole batch loop, so an exception raised in the loop reaches the
caller before any write happens and the list is empty. -/
def documents_written (doc : SimulationDocument) (rnd : Nat → BuildingRandom)
    (base_time : Int) : List SimulationDocument :=
  match add_emergency_requests_to_simulation doc rnd base_time with
  | Except.error _ => []
  | Except.ok (d, _) => [d]

/-- Outcome of the save step (source lines 147-149): opening the output
file can fail, or the write of the serialized text can fail after `k`
characters, or everything succeeds. -/
inductive SaveOutcome where
  | openFail
  | writeFailAfter (k : Nat)
  | success
  deriving DecidableEq

/-- The save step `with open(path, 'w') as f: json.dump(data, f, ...)`
(source lines 147-149) under CPython file semantics: mode `'w'` truncates
the target on a successful open, and `json.dump` then writes the serialized
text sequentially, so a failure after `k` characters leaves the `k`-length
prefix of the new text on disk.  Returns the on-disk contents after the
attempt together with the success flag the function reports. -/
def save_document (disk_before serialized : String) : SaveOutcome → String × Bool
  | SaveOutcome.openFail => (disk_before, false)
  | SaveOutcome.writeFailAfter k => (serialized.take k, false)
  | SaveOutcome.success => (serialized, true)

/-- Concrete record of in-function random draws, used by the witnesses. -/
def sampleGen : GenRandom := { random_minutes := 10, floor0 := 0, floor1 := 1, floor2 := 2 }

/-- Concrete per-building random draws, used by the witnesses. -/
def sampleBR : BuildingRandom :=
  { t1 := "EMERGENCY_STOP", t2 := "POWER_FAILURE",
    e1 := 0, f1 := 0, e2 := 1, f2 := 1, g1 := sampleGen, g2 := sampleGen }

/-- Constant stream of per-building draws, used by the witnesses. -/
def sampleRnd : Nat → BuildingRandom := fun _ => sampleBR

/-- Concrete document with two buildings and empty request lists
(the scenario of the spec), used by the witnesses. -/
def sampleDoc : SimulationDocument :=
  { edificios :=
      [{ id_edificio := "E001", peticiones := some [], extra := [] },
       { id_edificio := "E002", peticiones := some [], extra := [] }],
    extra := [] }

/-- Concrete document whose single building lacks the `peticiones` key,
used by the witnesses. -/
def sampleBadDoc : SimulationDocument :=
  { edificios := [{ id_edificio := "E001", peticiones := none, extra := [] }],
    extra := [] }

theorem gen_tipo_emergencia (bid t : String) (i cf base : Int) (g : GenRandom) :
    (generate_emergency_request bid t i cf base g).tipo_emergencia = t := rfl

theorem gen_piso (bid t : String) (i cf base : Int) (g : GenRandom) :
    (generate_emergency_request bid t i cf base g).piso_actual_emergencia = cf := rfl

theorem gen_ascensor_id (bid t : String) (i cf base : Int) (g : GenRandom) :
    (generate_emergency_request bid t i cf base g).ascensor_id_emergencia =
      "ASC_" ++ bid ++ "_" ++ py_format02 i := rfl

theorem gen_timestamp (bid t : String) (i cf base : Int) (g : GenRandom) :
    (generate_emergency_request bid t i cf base g).timestamp_emergencia =
      base + 60 * g.random_minutes := rfl

theorem gen_descripcion (bid t : String) (i cf base : Int) (g : GenRandom) :
    (generate_emergency_request bid t i cf base g).descripcion_emergencia =
      dict_get descriptions t "Emergencia no especificada" := rfl

theorem gen_estados (bid t : String) (i cf base : Int) (g : GenRandom) :
    (generate_emergency_request bid t i cf base g).elevadores_estado =
      [{ id_ascensor := "ASC_" ++ bid ++ "_00", disponible := i != 0, piso_actual := g.floor0 },
       { id_ascensor := "ASC_" ++ bid ++ "_01", disponible := i != 1, piso_actual := g.floor1 },
       { id_ascensor := "ASC_" ++ bid ++ "_02", disponible := i != 2, piso_actual := g.floor2 }] := rfl

theorem string_append_cancel_left {s t u : String} (h : s ++ t = s ++ u) : t = u := by
  have hd : (s ++ t).data = (s ++ u).data := by rw [h]
  rw [String.data_append, String.data_append] at hd
  exact String.ext (List.append_cancel_left hd)

theorem string_append_assoc (a b c : String) : a ++ b ++ c = a ++ (b ++ c) := by
  apply String.ext
  simp [String.data_append, List.append_assoc]

/-- `Claim C9: for an elevator index outside 0, 1, 2 the generator still
returns a record with three elevator states, and every one of them is
marked available.` -/
theorem c9_out_of_range_all_available (bid t : String) (i cf base : Int) (g : GenRandom)
    (h0 : i ≠ 0) (h1 : i ≠ 1) (h2 : i ≠ 2) :
    (generate_emergency_request bid t i cf base g).elevadores_estado.length = 3 ∧
    ∀ s ∈ (generate_emergency_request bid t i cf base g).elevadores_estado,
      s.disponible = true := by
  rw [gen_estados]
  refine ⟨rfl, ?_⟩
  intro s hs
  simp only [List.mem_cons, List.not_mem_nil, or_false] at hs
  rcases hs with h | h | h <;> subst h <;> simp [bne_iff_ne, h0, h1, h2]

/-- `Claim C9 witness at elevator index 5.` -/
theorem c9_witness :
    ((5 : Int) ≠ 0 ∧ (5 : Int) ≠ 1 ∧ (5 : Int) ≠ 2) ∧
    ((generate_emergency_request "E001" "FIRE_ALARM" 5 3 0 sampleGen).elevadores_estado.length = 3 ∧
     ∀ s ∈ (generate_emergency_request "E001" "FIRE_ALARM" 5 3 0 sampleGen).elevadores_estado,
       s.disponible = true) :=
  ⟨by decide,
   c9_out_of_range_all_available "E001" "FIRE_ALARM" 5 3 0 sampleGen
     (by decide) (by decide) (by decide)⟩

theorem asc_id_eq (bid : String) (i : Int) (s : String)
    (h : "_" ++ py_format02 i = s) :
    "ASC_" ++ bid ++ "_" ++ py_format02 i = "ASC_" ++ bid ++ s := by
  rw [string_append_assoc, h]

theorem py_format02_inj_on_range3 :
    ∀ a ∈ int_range 3, ∀ b ∈ int_range 3, py_format02 a = py_format02 b → a = b := by
  decide

/-- `Claim C2: for an elevator index between 0 and 2, the generated record
has exactly three elevator states, for indices 0, 1, 2 in that order, and
filtering out the unavailable ones leaves exactly one state, whose
identifier equals the request's own elevator identifier.` -/
theorem c2_exactly_one_unavailable (bid t : String) (i cf base : Int) (g : GenRandom)
    (h0 : 0 ≤ i) (h2 : i ≤ 2) :
    (generate_emergency_request bid t i cf base g).elevadores_estado.map
        (fun s => s.id_ascensor) =
      ["ASC_" ++ bid ++ "_00", "ASC_" ++ bid ++ "_01", "ASC_" ++ bid ++ "_02"] ∧
    ((generate_emergency_request bid t i cf base g).elevadores_estado.filter
        (fun s => !s.disponible)).map (fun s => s.id_ascensor) =
      [(generate_emergency_request bid t i cf base g).ascensor_id_emergencia] := by
  rw [gen_estados, gen_ascensor_id]
  refine ⟨rfl, ?_⟩
  interval_cases i
  · rw [asc_id_eq bid 0 "_00" (by decide)]
    exact rfl
  · rw [asc_id_eq bid 1 "_01" (by decide)]
    exact rfl
  · rw [asc_id_eq bid 2 "_02" (by decide)]
    exact rfl

/-- `Claim C2 witness at elevator index 1.` -/
theorem c2_witness :
    ((0 : Int) ≤ 1 ∧ (1 : Int) ≤ 2) ∧
    ((generate_emergency_request "E001" "FIRE_ALARM" 1 3 0 sampleGen).elevadores_estado.map
        (fun s => s.id_ascensor) =
      ["ASC_" ++ "E001" ++ "_00", "ASC_" ++ "E001" ++ "_01", "ASC_" ++ "E001" ++ "_02"] ∧
     ((generate_emergency_request "E001" "FIRE_ALARM" 1 3 0 sampleGen).elevadores_estado.filter
        (fun s => !s.disponible)).map (fun s => s.id_ascensor) =
      [(generate_emergency_request "E001" "FIRE_ALARM" 1 3 0 sampleGen).ascensor_id_emergencia]) :=
  ⟨by decide, c2_exactly_one_unavailable "E001" "FIRE_ALARM" 1 3 0 sampleGen
    (by decide) (by decide)⟩

/-- `Claim C1: under the validity constraints of the per-building draws, the
two requests generated for a building disagree on the emergency type, on
the derived elevator identifier, and on the current floor.` -/
theorem c1_two_requests_distinct (b : Building) (r : BuildingRandom) (base : Int)
    (q1 q2 : EmergencyRequest) (hr : r.Valid)
    (hq : building_requests b r base = [Petition.emergency q1, Petition.emergency q2]) :
    q1.tipo_emergencia ≠ q2.tipo_emergencia ∧
    q1.ascensor_id_emergencia ≠ q2.ascensor_id_emergencia ∧
    q1.piso_actual_emergencia ≠ q2.piso_actual_emergencia := by
  simp only [building_requests, List.cons.injEq, Petition.emergency.injEq,
    and_true] at hq
  obtain ⟨hq1, hq2⟩ := hq
  subst hq1; subst hq2
  obtain ⟨ht1, ht2, he1, hf1, he2, hf2, -, -⟩ := hr
  rw [List.mem_filter] at ht2 he2 hf2
  refine ⟨?_, ?_, ?_⟩
  · rw [gen_tipo_emergencia, gen_tipo_emergencia]
    exact (bne_iff_ne.mp ht2.2).symm
  · rw [gen_ascensor_id, gen_ascensor_id]
    intro heq
    have hfmt : py_format02 r.e1 = py_format02 r.e2 :=
      string_append_cancel_left heq
    exact (bne_iff_ne.mp he2.2)
      (py_format02_inj_on_range3 r.e2 he2.1 r.e1 he1 hfmt.symm)
  · rw [gen_piso, gen_piso]
    exact fun heq => (bne_iff_ne.mp hf2.2) heq.symm

/-- `Claim C1 witness at the sample per-building draws.` -/
theorem c1_witness :
    sampleBR.Valid ∧
    ((generate_emergency_request "E001" "EMERGENCY_STOP" 0 0 0 sampleGen).tipo_emergencia ≠
       (generate_emergency_request "E001" "POWER_FAILURE" 1 1 0 sampleGen).tipo_emergencia ∧
     (generate_emergency_request "E001" "EMERGENCY_STOP" 0 0 0 sampleGen).ascensor_id_emergencia ≠
       (generate_emergency_request "E001" "POWER_FAILURE" 1 1 0 sampleGen).ascensor_id_emergencia ∧
     (generate_emergency_request "E001" "EMERGENCY_STOP" 0 0 0 sampleGen).piso_actual_emergencia ≠
       (generate_emergency_request "E001" "POWER_FAILURE" 1 1 0 sampleGen).piso_actual_emergencia) :=
  ⟨by decide,
   c1_two_requests_distinct { id_edificio := "E001", peticiones := some [], extra := [] }
     sampleBR 0
     (generate_emergency_request "E001" "EMERGENCY_STOP" 0 0 0 sampleGen)
     (generate_emergency_request "E001" "POWER_FAILURE" 1 1 0 sampleGen)
     (by decide) rfl⟩

/-- `Claim C10: for an emergency type that is not a key of the description
table, the generator returns (it is total in this embedding, mirroring that
dict.get never raises) and the description is the fixed fallback string.` -/
theorem c10_unknown_type_fallback (bid t : String) (i cf base : Int) (g : GenRandom)
    (ht : t ∉ descriptions.map Prod.fst) :
    (generate_emergency_request bid t i cf base g).descripcion_emergencia =
      "Emergencia no especificada" := by
  rw [gen_descripcion]
  have hnone : descriptions.find? (fun p => p.fst == t) = none := by
    rw [List.find?_eq_none]
    intro p hp
    simp only [Bool.not_eq_true, beq_eq_false_iff_ne]
    intro hq
    exact ht (hq ▸ List.mem_map_of_mem Prod.fst hp)
  simp [dict_get, hnone]

/-- `Claim C10 witness at the emergency type "UNKNOWN".` -/
theorem c10_witness :
    "UNKNOWN" ∉ descriptions.map Prod.fst ∧
    (generate_emergency_request "E001" "UNKNOWN" 0 0 0 sampleGen).descripcion_emergencia =
      "Emergencia no especificada" :=
  ⟨by decide, c10_unknown_type_fallback "E001" "UNKNOWN" 0 0 0 sampleGen (by decide)⟩

/-- `Claim C6: for an emergency type belonging to the closed 5-element enum,
the description table has exactly one entry for that type, the generated
description is that entry's value, and it differs from the fallback default
string, so the fallback branch is never taken.` -/
theorem c6_description_table (bid t : String) (i cf base : Int) (g : GenRandom)
    (ht : t ∈ emergency_types) :
    (descriptions.filter (fun p => p.fst == t)).map Prod.snd =
      [(generate_emergency_request bid t i cf base g).descripcion_emergencia] ∧
    (generate_emergency_request bid t i cf base g).descripcion_emergencia ≠
      "Emergencia no especificada" := by
  rw [gen_descripcion]
  simp only [emergency_types, List.mem_cons, List.not_mem_nil, or_false] at ht
  rcases ht with h | h | h | h | h <;> subst h <;> exact ⟨by decide, by decide⟩

/-- `Claim C6 witness at the emergency type "PEOPLE_TRAPPED".` -/
theorem c6_witness :
    "PEOPLE_TRAPPED" ∈ emergency_types ∧
    ((descriptions.filter (fun p => p.fst == "PEOPLE_TRAPPED")).map Prod.snd =
      [(generate_emergency_request "E001" "PEOPLE_TRAPPED" 0 0 0 sampleGen).descripcion_emergencia] ∧
     (generate_emergency_request "E001" "PEOPLE_TRAPPED" 0 0 0 sampleGen).descripcion_emergencia ≠
      "Emergencia no especificada") :=
  ⟨by decide, c6_description_table "E001" "PEOPLE_TRAPPED" 0 0 0 sampleGen (by decide)⟩

/-- `Claim C7: the generated timestamp is the generation-time clock value
plus sixty seconds for each of the 10 to 300 randomly drawn minutes, hence
at least 10 minutes and at most 300 minutes ahead, and strictly in the
future.` -/
theorem c7_timestamp_future (bid t : String) (i cf base : Int) (g : GenRandom)
    (h : g.Valid) :
    (generate_emergency_request bid t i cf base g).timestamp_emergencia =
      base + 60 * g.random_minutes ∧
    base + 600 ≤ (generate_emergency_request bid t i cf base g).timestamp_emergencia ∧
    (generate_emergency_request bid t i cf base g).timestamp_emergencia ≤ base + 18000 ∧
    base < (generate_emergency_request bid t i cf base g).timestamp_emergencia := by
  obtain ⟨h1, h2, -⟩ := h
  rw [gen_timestamp]
  refine ⟨rfl, by omega, by omega, by omega⟩

/-- `Claim C7 witness at the sample draws.` -/
theorem c7_witness :
    sampleGen.Valid ∧
    ((generate_emergency_request "E001" "FIRE_ALARM" 0 0 100 sampleGen).timestamp_emergencia =
      100 + 60 * sampleGen.random_minutes ∧
     100 + 600 ≤ (generate_emergency_request "E001" "FIRE_ALARM" 0 0 100 sampleGen).timestamp_emergencia ∧
     (generate_emergency_request "E001" "FIRE_ALARM" 0 0 100 sampleGen).timestamp_emergencia ≤ 100 + 18000 ∧
     (100 : Int) < (generate_emergency_request "E001" "FIRE_ALARM" 0 0 100 sampleGen).timestamp_emergencia) :=
  ⟨by decide, c7_timestamp_future "E001" "FIRE_ALARM" 0 0 100 sampleGen (by decide)⟩

theorem augment_list_ok_spec (rnd : Nat → BuildingRandom) (base : Int) :
    ∀ (bs : List Building) (i : Nat) (bs2 : List Building) (m : Nat),
      augment_list rnd base i bs = Except.ok (bs2, m) →
      m = 2 * bs.length ∧ bs2.length = bs.length ∧
      ∀ (j : Nat) (b : Building), bs[j]? = some b →
        ∃ pets, b.peticiones = some pets ∧
          bs2[j]? =
            some { b with
                   peticiones := some (pets ++ building_requests b (rnd (i + j)) base) } := by
  intro bs
  induction bs with
  | nil =>
      intro i bs2 m h
      simp only [augment_list, Except.ok.injEq, Prod.mk.injEq] at h
      obtain ⟨hbs2, hm⟩ := h
      subst hbs2; subst hm
      exact ⟨rfl, rfl, fun j b hb => by simp at hb⟩
  | cons b bs ih =>
      intro i bs2 m h
      unfold augment_list at h
      cases hp : process_building b (rnd i) base with
      | error e => rw [hp] at h; exact absurd h (by simp)
      | ok p =>
          rw [hp] at h
          obtain ⟨b2, n⟩ := p
          cases hrec : augment_list rnd base (i + 1) bs with
          | error e => rw [hrec] at h; exact absurd h (by simp)
          | ok q =>
              rw [hrec] at h
              obtain ⟨bs3, m3⟩ := q
              simp only [Except.ok.injEq, Prod.mk.injEq] at h
              obtain ⟨hbs2, hm⟩ := h
              subst hbs2; subst hm
              unfold process_building at hp
              cases hpets : b.peticiones with
              | none => rw [hpets] at hp; exact absurd hp (by simp)
              | some pets =>
                  rw [hpets] at hp
                  simp only [Except.ok.injEq, Prod.mk.injEq] at hp
                  obtain ⟨hb2, hn⟩ := hp
                  obtain ⟨ihm, ihlen, ihidx⟩ := ih (i + 1) bs3 m3 hrec
                  refine ⟨by simp [List.length_cons]; omega,
                          by simp [List.length_cons, ihlen], ?_⟩
                  intro j bj hbj
                  cases j with
                  | zero =>
                      simp only [List.getElem?_cons_zero, Option.some.injEq] at hbj
                      subst hbj
                      refine ⟨pets, hpets, ?_⟩
                      simp only [List.getElem?_cons_zero, Option.some.injEq,
                        Nat.add_zero]
                      exact hb2.symm
                  | succ j =>
                      simp only [List.getElem?_cons_succ] at hbj ⊢
                      have hidx := ihidx j bj hbj
                      have heq : i + 1 + j = i + (j + 1) := by omega
                      rw [heq] at hidx
                      exact hidx

theorem add_ok_spec (doc : SimulationDocument) (rnd : Nat → BuildingRandom)
    (base : Int) (doc2 : SimulationDocument) (total : Nat)
    (h : add_emergency_requests_to_simulation doc rnd base = Except.ok (doc2, total)) :
    total = 2 * doc.edificios.length ∧ doc2.extra = doc.extra ∧
    doc2.edificios.length = doc.edificios.length ∧
    ∀ (j : Nat) (b : Building), doc.edificios[j]? = some b →
      ∃ pets, b.peticiones = some pets ∧
        doc2.edificios[j]? =
          some { b with
                 peticiones := some (pets ++ building_requests b (rnd j) base) } := by
  unfold add_emergency_requests_to_simulation at h
  cases haug : augment_list rnd base 0 doc.edificios with
  | error e => rw [haug] at h; exact absurd h (by simp)
  | ok p =>
      rw [haug] at h
      obtain ⟨bs2, m⟩ := p
      simp only [Except.ok.injEq, Prod.mk.injEq] at h
      obtain ⟨hdoc2, hm⟩ := h
      subst hm
      obtain ⟨hm, hlen, hidx⟩ := augment_list_ok_spec rnd base doc.edificios 0 bs2 m haug
      refine ⟨hm, ?_, ?_, ?_⟩
      · rw [← hdoc2]
      · rw [← hdoc2]; exact hlen
      · intro j b hb
        obtain ⟨pets, hpets, hb2⟩ := hidx j b hb
        refine ⟨pets, hpets, ?_⟩
        rw [← hdoc2]
        simpa using hb2

theorem augment_list_error (rnd : Nat → BuildingRandom) (base : Int) :
    ∀ (bs : List Building), (∃ b ∈ bs, b.peticiones = none) →
      ∀ i, ∃ e, augment_list rnd base i bs = Except.error e := by
  intro bs
  induction bs with
  | nil => intro h; exact absurd h (by simp)
  | cons b bs ih =>
      intro h i
      rcases h with ⟨b0, hmem, hnone⟩
      rcases List.mem_cons.mp hmem with hb0 | hb0
      · subst hb0
        refine ⟨PyError.keyError "peticiones", ?_⟩
        unfold augment_list process_building
        rw [hnone]
      · obtain ⟨e, he⟩ := ih ⟨b0, hb0, hnone⟩ (i + 1)
        unfold augment_list
        cases hp : process_building b (rnd i) base with
        | error e2 => exact ⟨e2, rfl⟩
        | ok p => obtain ⟨b2, n⟩ := p; rw [he]; exact ⟨e, rfl⟩

/-- `Claim C3: on a successful run the batch routine reports a total of
twice the number of buildings, keeps the number of buildings, and extends
each building's request list by exactly two entries, keeping the
pre-existing entries as a prefix.` -/
theorem c3_two_per_building_total (doc : SimulationDocument)
    (rnd : Nat → BuildingRandom) (base : Int) (doc2 : SimulationDocument) (total : Nat)
    (h : add_emergency_requests_to_simulation doc rnd base = Except.ok (doc2, total)) :
    total = 2 * doc.edificios.length ∧
    doc2.edificios.length = doc.edificios.length ∧
    ∀ (j : Nat) (b : Building), doc.edificios[j]? = some b →
      ∃ pets b2 q1 q2, b.peticiones = some pets ∧
        doc2.edificios[j]? = some b2 ∧
        b2.peticiones = some (pets ++ [q1, q2]) := by
  obtain ⟨hm, -, hlen, hidx⟩ := add_ok_spec doc rnd base doc2 total h
  refine ⟨hm, hlen, ?_⟩
  intro j b hb
  obtain ⟨pets, hpets, hb2⟩ := hidx j b hb
  exact ⟨pets, _,
    Petition.emergency
      (generate_emergency_request b.id_edificio (rnd j).t1 (rnd j).e1 (rnd j).f1 base (rnd j).g1),
    Petition.emergency
      (generate_emergency_request b.id_edificio (rnd j).t2 (rnd j).e2 (rnd j).f2 base (rnd j).g2),
    hpets, hb2, rfl⟩

/-- `Claim C3 witness: the two-building document of the spec scenario yields
a reported total of 4.` -/
theorem c3_witness :
    ∃ p : SimulationDocument × Nat,
      add_emergency_requests_to_simulation sampleDoc sampleRnd 0 = Except.ok p ∧
      p.2 = 2 * sampleDoc.edificios.length ∧ p.2 = 4 := by
  obtain ⟨p, hp⟩ : ∃ p, add_emergency_requests_to_simulation sampleDoc sampleRnd 0 =
      Except.ok p := ⟨_, rfl⟩
  obtain ⟨d, n⟩ := p
  obtain ⟨hm, -, -⟩ := c3_two_per_building_total sampleDoc sampleRnd 0 d n hp
  exact ⟨(d, n), hp, hm, by rw [hm]; rfl⟩

/-- `Claim C8: on a successful run the routine only appends to each
building's request list: the document's other fields, every building's
identifier and unknown fields, the building order, and all pre-existing
request entries are unchanged in the document handed to the save step.` -/
theorem c8_append_only_frame (doc : SimulationDocument)
    (rnd : Nat → BuildingRandom) (base : Int) (doc2 : SimulationDocument) (total : Nat)
    (h : add_emergency_requests_to_simulation doc rnd base = Except.ok (doc2, total)) :
    doc2.extra = doc.extra ∧
    doc2.edificios.length = doc.edificios.length ∧
    (documents_written doc rnd base = [doc2]) ∧
    ∀ (j : Nat) (b : Building), doc.edificios[j]? = some b →
      ∃ pets, b.peticiones = some pets ∧
        doc2.edificios[j]? =
          some { id_edificio := b.id_edificio,
                 peticiones := some (pets ++ building_requests b (rnd j) base),
                 extra := b.extra } := by
  obtain ⟨-, hextra, hlen, hidx⟩ := add_ok_spec doc rnd base doc2 total h
  refine ⟨hextra, hlen, ?_, ?_⟩
  · unfold documents_written
    rw [h]
  · intro j b hb
    obtain ⟨pets, hpets, hb2⟩ := hidx j b hb
    refine ⟨pets, hpets, ?_⟩
    obtain ⟨bid, bpets, bex⟩ := b
    exact hb2

/-- `Claim C8 witness on the two-building sample document.` -/
theorem c8_witness :
    ∃ p : SimulationDocument × Nat,
      add_emergency_requests_to_simulation sampleDoc sampleRnd 0 = Except.ok p ∧
      p.1.extra = sampleDoc.extra ∧
      p.1.edificios.length = sampleDoc.edificios.length := by
  obtain ⟨p, hp⟩ : ∃ p, add_emergency_requests_to_simulation sampleDoc sampleRnd 0 =
      Except.ok p := ⟨_, rfl⟩
  obtain ⟨d, n⟩ := p
  obtain ⟨hextra, hlen, -, -⟩ := c8_append_only_frame sampleDoc sampleRnd 0 d n hp
  exact ⟨(d, n), hp, hextra, hlen⟩

/-- `Claim C5: when some building of the loaded document lacks the
peticiones container, the batch routine raises (a KeyError, the behaviour
the spec files under MalformedDataError) and no document is ever handed to
the save step, so the run aborts before writing the output file.` -/
theorem c5_missing_container_aborts (doc : SimulationDocument)
    (rnd : Nat → BuildingRandom) (base : Int)
    (h : ∃ b ∈ doc.edificios, b.peticiones = none) :
    (∃ e, add_emergency_requests_to_simulation doc rnd base = Except.error e) ∧
    documents_written doc rnd base = [] := by
  obtain ⟨e, he⟩ := augment_list_error rnd base doc.edificios h 0
  have hadd : add_emergency_requests_to_simulation doc rnd base = Except.error e := by
    unfold add_emergency_requests_to_simulation
    rw [he]
  refine ⟨⟨e, hadd⟩, ?_⟩
  unfold documents_written
  rw [hadd]

/-- `Claim C5 witness: a document whose single building has no peticiones
key.` -/
theorem c5_witness :
    (∃ b ∈ sampleBadDoc.edificios, b.peticiones = none) ∧
    documents_written sampleBadDoc sampleRnd 0 = [] := by
  have h : ∃ b ∈ sampleBadDoc.edificios, b.peticiones = none := by decide
  exact ⟨h, (c5_missing_container_aborts sampleBadDoc sampleRnd 0 h).2⟩

/-- `Claim C4 counterexample: a write failure after the output file has
been opened leaves a truncated partial file, not the original contents, so
a failed save does not always leave the on-disk file as it was.` -/
theorem c4_counterexample :
    (save_document "old-data" "new-data" (SaveOutcome.writeFailAfter 3)).2 = false ∧
    (save_document "old-data" "new-data" (SaveOutcome.writeFailAfter 3)).1 ≠ "old-data" := by
  decide

/-- `Claim C4 amended: if the save fails when opening the output file the
on-disk file remains exactly as before; but a failure after the file has
been opened in truncating write mode leaves the written prefix of the new
serialization on disk, and in both cases the failure is reported.` -/
theorem c4_amended_save (disk ser : String) (k : Nat) :
    save_document disk ser SaveOutcome.openFail = (disk, false) ∧
    (save_document disk ser (SaveOutcome.writeFailAfter k)).1 = ser.take k ∧
    (save_document disk ser (SaveOutcome.writeFailAfter k)).2 = false :=
  ⟨rfl, rfl, rfl⟩

end AddEmergency
